import Mathlib

/-!
Shallow embedding of the installment/credit financial engine of the
point-of-sale back office (transaction service, defective-log service,
bonus calculator).  JavaScript numbers are modelled as rationals (ℚ);
`Math.round` is modelled as rounding half toward positive infinity;
`x || 0` on a non-null number is the identity and is dropped; JS
truthiness tests on optional numeric fields (`if (item.creditPercent)`)
are modelled as "present and nonzero".
-/

namespace NonProject

/-- JS `Math.round`: round half toward positive infinity. -/
def jsRound (x : ℚ) : ℤ := ⌊x + 1/2⌋

/-- JS truthiness of an optional number: present and nonzero. -/
def qTruthy : Option ℚ → Bool
  | none => false
  | some c => c != 0

/-- JS truthiness of an optional natural (credit months / days count). -/
def natTruthy : Option ℕ → Bool
  | none => false
  | some n => n != 0

/-- JS `String.prototype.toUpperCase` (per character). -/
def jsToUpperCase (s : String) : String := ⟨s.data.map Char.toUpper⟩

inductive PaymentType
  | CASH | CARD | TERMINAL | CREDIT | INSTALLMENT
  deriving DecidableEq, Repr

inductive TransactionType
  | SALE | PURCHASE | TRANSFER | RETURN | WRITE_OFF | DELIVERY
  deriving DecidableEq, Repr

inductive ProductStatus
  | IN_STORE | DEFECTIVE | FIXED | RETURNED | EXCHANGED | SOLD | IN_WAREHOUSE
  deriving DecidableEq, Repr

/-- One line item of a sale request (transaction.service `create` dto items,
also the shape the schedule builders iterate over). -/
structure SaleItem where
  productId : Option ℕ
  quantity : ℚ
  price : ℚ
  sellingPrice : Option ℚ
  creditMonth : Option ℕ
  creditPercent : Option ℚ
  deriving DecidableEq, Repr

/-- `principal = (item.price || 0) * (item.quantity || 0)`. -/
def principalOf (i : SaleItem) : ℚ := i.price * i.quantity

/-- `computedTotal` / `totalPrincipal` accumulator of transaction.service
`create` (lines 87-97) and `createPaymentSchedule` (lines 315-325):
sum of per-line principals over all items. -/
def totalPrincipalOf (items : List SaleItem) : ℚ :=
  (items.map principalOf).sum

/-- `weightedPercentSum`: accumulates `principal * creditPercent` for items
whose `creditPercent` is truthy (present and nonzero). -/
def weightedPercentSumOf (items : List SaleItem) : ℚ :=
  (items.map (fun i =>
    if qTruthy i.creditPercent then principalOf i * i.creditPercent.getD 0 else 0)).sum

/-- `percentWeightBase`: accumulates `principal` for items whose
`creditPercent` is truthy. -/
def percentWeightBaseOf (items : List SaleItem) : ℚ :=
  (items.map (fun i => if qTruthy i.creditPercent then principalOf i else 0)).sum

/-- `effectivePercent = percentWeightBase > 0 ? weightedPercentSum / percentWeightBase : 0`. -/
def effectivePercentOf (items : List SaleItem) : ℚ :=
  if 0 < percentWeightBaseOf items then
    weightedPercentSumOf items / percentWeightBaseOf items
  else 0

/-- `totalMonths`: max of truthy `creditMonth` values across items, starting at 0. -/
def totalMonthsOf (items : List SaleItem) : ℕ :=
  items.foldl (fun acc i => if natTruthy i.creditMonth then max acc (i.creditMonth.getD 0) else acc) 0

/-- One stored payment-schedule row (the fields common to both engines;
constant metadata such as `installmentType` is not modelled). -/
structure ScheduleRow where
  transactionId : ℕ
  month : ℕ
  payment : ℚ
  remainingBalance : ℚ
  isPaid : Bool
  paidAmount : ℚ
  deriving DecidableEq, Repr

/-- The schedule emission loop shared verbatim by `createPaymentSchedule`
(part_002 lines 344-360) and `recalculatePaymentSchedules`
(defective-log.service lines 101-113): one row per month `1..n`; every
month pays `monthlyPayment` except the last, which pays the running
balance; the stored `remainingBalance` is clamped at 0.  `fuel` counts the
rows still to emit (the initial call passes `fuel = n`), so the month
being emitted is `n - fuel + 1`; with the `fuel+1` pattern below that is
`n - fuel`. -/
def scheduleRowsAux (txId n : ℕ) (monthlyPayment : ℚ) : ℕ → ℚ → List ScheduleRow
  | 0, _ => []
  | fuel + 1, bal =>
    let month := n - fuel
    let currentPayment := if month = n then bal else monthlyPayment
    let bal2 := bal - currentPayment
    { transactionId := txId, month := month, payment := currentPayment,
      remainingBalance := max 0 bal2, isPaid := false, paidAmount := 0 }
      :: scheduleRowsAux txId n monthlyPayment fuel bal2

/-- `remainingWithInterest` as computed by `createPaymentSchedule`
(part_002 lines 329-336): `remainingPrincipal + remainingPrincipal * effectivePercent`
with `remainingPrincipal = max(0, totalPrincipal - downPayment)`. -/
def scheduleRemainingWithInterest (items : List SaleItem) (downPayment : ℚ) : ℚ :=
  let remainingPrincipal := max 0 (totalPrincipalOf items - downPayment)
  remainingPrincipal + remainingPrincipal * effectivePercentOf items

/-- Embedding of `createPaymentSchedule` (part_002 lines 306-368): the rows
written for a monthly credit/installment schedule (empty when the
`totalPrincipal > 0 && totalMonths > 0` guard fails). -/
def createPaymentSchedule (txId : ℕ) (items : List SaleItem) (downPayment : ℚ) : List ScheduleRow :=
  let totalPrincipal := totalPrincipalOf items
  let totalMonths := totalMonthsOf items
  if 0 < totalPrincipal ∧ 0 < totalMonths then
    let remainingPrincipal := max 0 (totalPrincipal - downPayment)
    let effectivePercent := effectivePercentOf items
    let interestAmount := remainingPrincipal * effectivePercent
    let remainingWithInterest := remainingPrincipal + interestAmount
    let monthlyPayment := remainingWithInterest / (totalMonths : ℚ)
    scheduleRowsAux txId totalMonths monthlyPayment totalMonths remainingWithInterest
  else []

/-! ### Transaction items and transactions as stored (defective-log side) -/

inductive ItemStatus
  | ACTIVE | RETURNED
  deriving DecidableEq, Repr

/-- A stored `TransactionItem` row. -/
structure TxItem where
  id : ℕ
  productId : ℕ
  quantity : ℚ
  price : ℚ
  sellingPrice : Option ℚ
  originalPrice : Option ℚ
  total : ℚ
  status : ItemStatus
  creditMonth : Option ℕ
  creditPercent : Option ℚ
  deriving DecidableEq, Repr

/-- A stored `Transaction` row (the fields the defective-log flow reads). -/
structure Txn where
  id : ℕ
  paymentType : PaymentType
  amountPaid : ℚ
  total : ℚ
  finalTotal : ℚ
  extraProfit : ℚ
  items : List TxItem
  deriving DecidableEq, Repr

/-- First pass of `recalculatePaymentSchedules` (defective-log.service
lines 47-58): "original" total principal over all items, where
`originalQuantity = item.quantity + (item.status === 'RETURNED' ? 0 : 0)`
(the source adds 0 in both branches, so this is the current quantity). -/
def recalcOriginalTotalPrincipal (allItems : List TxItem) : ℚ :=
  (allItems.map (fun item =>
    let originalQuantity := item.quantity + (if item.status = ItemStatus.RETURNED then 0 else 0)
    item.price * originalQuantity)).sum

/-- `totalMonths` of `recalculatePaymentSchedules`: max of truthy
`creditMonth` over all items. -/
def recalcTotalMonths (allItems : List TxItem) : ℕ :=
  allItems.foldl (fun acc i => if natTruthy i.creditMonth then max acc (i.creditMonth.getD 0) else acc) 0

/-- Second pass (lines 65-72): remaining total principal over items with
`quantity > 0`. -/
def recalcRemainingTotalPrincipal (remainingItems : List TxItem) : ℚ :=
  (remainingItems.map (fun i => i.price * i.quantity)).sum

/-- Second pass: weighted percent sum over the remaining items. -/
def recalcRemainingWeightedPercentSum (remainingItems : List TxItem) : ℚ :=
  (remainingItems.map (fun i =>
    if qTruthy i.creditPercent then i.price * i.quantity * i.creditPercent.getD 0 else 0)).sum

/-- Second pass: percent weight base over the remaining items. -/
def recalcRemainingPercentWeightBase (remainingItems : List TxItem) : ℚ :=
  (remainingItems.map (fun i => if qTruthy i.creditPercent then i.price * i.quantity else 0)).sum

/-- `proportionalUpfront` of `recalculatePaymentSchedules` (lines 75-78):
`originalUpfrontPayment * (remainingTotalPrincipal / originalTotalPrincipal)`
with the "original" total taken from the first pass above. -/
def recalcProportionalUpfront (tx : Txn) : ℚ :=
  let allItems := tx.items
  let remainingItems := allItems.filter (fun item => 0 < item.quantity)
  let originalTotalPrincipal := recalcOriginalTotalPrincipal allItems
  let remainingTotalPrincipal := recalcRemainingTotalPrincipal remainingItems
  let upfrontRatio := if 0 < originalTotalPrincipal then remainingTotalPrincipal / originalTotalPrincipal else 0
  tx.amountPaid * upfrontRatio

/-- Embedding of `recalculatePaymentSchedules` (defective-log.service
lines 12-130).  Input: the transaction and its currently stored schedule
rows; output: the stored rows, `total` and `finalTotal` after the call.
Existing rows are deleted before the remaining-items check; the
schedule/totals update only happens when `remainingTotalPrincipal > 0`
and `totalMonths > 0`. -/
def recalculatePaymentSchedules (tx : Txn) (schedules : List ScheduleRow) :
    List ScheduleRow × ℚ × ℚ :=
  if ¬ (tx.paymentType = PaymentType.CREDIT ∨ tx.paymentType = PaymentType.INSTALLMENT) then
    (schedules, tx.total, tx.finalTotal)
  else
    -- existing payment schedules are deleted here, before any other check
    let allItems := tx.items
    let remainingItems := allItems.filter (fun item => 0 < item.quantity)
    if remainingItems.isEmpty then
      ([], tx.total, tx.finalTotal)
    else
      let originalTotalPrincipal := recalcOriginalTotalPrincipal allItems
      let totalMonths := recalcTotalMonths allItems
      let remainingTotalPrincipal := recalcRemainingTotalPrincipal remainingItems
      if 0 < remainingTotalPrincipal ∧ 0 < totalMonths then
        let originalUpfrontPayment := tx.amountPaid
        let upfrontRatio := if 0 < originalTotalPrincipal then remainingTotalPrincipal / originalTotalPrincipal else 0
        let proportionalUpfront := originalUpfrontPayment * upfrontRatio
        let remainingPrincipal := max 0 (remainingTotalPrincipal - proportionalUpfront)
        let effectivePercent :=
          if 0 < recalcRemainingPercentWeightBase remainingItems then
            recalcRemainingWeightedPercentSum remainingItems / recalcRemainingPercentWeightBase remainingItems
          else 0
        let interestAmount := remainingPrincipal * effectivePercent
        let remainingWithInterest := remainingPrincipal + interestAmount
        let monthlyPayment := remainingWithInterest / (totalMonths : ℚ)
        (scheduleRowsAux tx.id totalMonths monthlyPayment totalMonths remainingWithInterest,
         remainingTotalPrincipal, remainingWithInterest)
      else
        ([], tx.total, tx.finalTotal)

/-! ### Sale stock update (transaction.service `updateProductQuantities`) -/

/-- A stored `Product` row (the fields the core flows touch). -/
structure Product where
  quantity : ℚ
  defectiveQuantity : ℚ
  returnedQuantity : ℚ
  exchangedQuantity : ℚ
  price : ℚ
  status : ProductStatus
  deriving DecidableEq, Repr

/-- Per-product step of `updateProductQuantities` (part_002 lines 385-405):
SALE decrements the quantity with a floor at 0 and derives SOLD/IN_STORE;
PURCHASE increments and sets IN_WAREHOUSE; other types leave the product
unchanged (TRANSFER uses a separate method). -/
def updateProductQuantityStep (ttype : TransactionType) (product : Product) (itemQuantity : ℚ) : Product :=
  if ttype = TransactionType.SALE then
    let newQuantity := max 0 (product.quantity - itemQuantity)
    { product with
      quantity := newQuantity,
      status := if newQuantity = 0 then ProductStatus.SOLD else ProductStatus.IN_STORE }
  else if ttype = TransactionType.PURCHASE then
    { product with
      quantity := product.quantity + itemQuantity,
      status := ProductStatus.IN_WAREHOUSE }
  else product

/-! ### Itemized payment breakdown validation (transaction.service `create`, lines 108-124) -/

/-- One entry of the optional `payments` breakdown of a sale request. -/
structure PaymentEntry where
  method : String
  amount : ℚ
  deriving DecidableEq, Repr

/-- `paymentsData`: uppercase the method, then keep entries with a positive
amount and a method among CASH, CARD, TERMINAL, TOVAR. -/
def paymentsData (payments : List PaymentEntry) : List PaymentEntry :=
  (payments.map (fun p => { method := jsToUpperCase p.method, amount := p.amount })).filter
    (fun p => (0 < p.amount : Bool) && ["CASH", "CARD", "TERMINAL", "TOVAR"].contains p.method)

/-- `totalPayments`: sum of the filtered breakdown amounts. -/
def totalPayments (payments : List PaymentEntry) : ℚ :=
  ((paymentsData payments).map (fun p => p.amount)).sum

/-- The breakdown validation: when a non-empty breakdown is supplied, the
creation throws iff `Math.round(computedTotal) !== Math.round(totalPayments)`. -/
def paymentsValidationFails (payments : List PaymentEntry) (computedTotal : ℚ) : Bool :=
  if payments.isEmpty then false
  else jsRound computedTotal != jsRound (totalPayments payments)

/-! ### Bonus/penalty calculator (transaction.service `calculateAndCreateSalesBonuses`) -/

/-- One sold line as seen by the bonus calculator, together with the fields
of its product record that the calculator reads (`productInfo.price`,
`productInfo.bonusPercentage`; the refetch-from-database branch returns the
same record). -/
structure BonusCalcItem where
  productId : Option ℕ
  quantity : ℚ
  price : ℚ
  sellingPrice : Option ℚ
  productPrice : ℚ
  bonusPercentage : ℚ
  deriving DecidableEq, Repr

/-- A `TransactionBonusProduct` join row with its product cost (USD). -/
structure BonusProductRec where
  productPrice : ℚ
  quantity : ℚ
  deriving DecidableEq, Repr

/-- Selling price in settlement currency (part_002 lines 1810-1822): if
`sellingPrice` is present but implausibly small relative to the rate
(`0 < rawSp < max(rate/2, 10000)`), treat it as source currency and
convert; otherwise round as-is; if absent, convert `item.price`. -/
def sellingPriceUzs (rate : ℚ) (i : BonusCalcItem) : ℚ :=
  match i.sellingPrice with
  | some rawSp =>
    if 0 < rawSp ∧ rawSp < max (rate / 2) 10000 then (jsRound (rawSp * rate) : ℚ)
    else (jsRound rawSp : ℚ)
  | none => (jsRound (i.price * rate) : ℚ)

/-- `Number(item.quantity || 1)`: a zero quantity is treated as 1. -/
def bonusCalcQty (i : BonusCalcItem) : ℚ :=
  if i.quantity = 0 then 1 else i.quantity

/-- `costInUzs` (line 1840-1842): `productInfo?.price ? round(price*rate) : 0`. -/
def costInUzs (rate : ℚ) (i : BonusCalcItem) : ℚ :=
  if i.productPrice ≠ 0 then (jsRound (i.productPrice * rate) : ℚ) else 0

/-- Per-line raw price difference (lines 1843-1845): positive only when the
line sold above cost and the product has a nonzero bonus percentage. -/
def priceDifferenceOf (rate : ℚ) (i : BonusCalcItem) : ℚ :=
  if costInUzs rate i < sellingPriceUzs rate i ∧ 0 < i.bonusPercentage then
    (sellingPriceUzs rate i - costInUzs rate i) * bonusCalcQty i
  else 0

/-- `totalPriceDifferenceForTransaction`. -/
def totalPriceDifference (rate : ℚ) (items : List BonusCalcItem) : ℚ :=
  (items.map (priceDifferenceOf rate)).sum

/-- `totalSellingAll`: sum of sellingPrice*quantity over all lines. -/
def totalSellingAll (rate : ℚ) (items : List BonusCalcItem) : ℚ :=
  (items.map (fun i => sellingPriceUzs rate i * bonusCalcQty i)).sum

/-- `totalCostAll`: sum of costInUzs*quantity over all lines. -/
def totalCostAll (rate : ℚ) (items : List BonusCalcItem) : ℚ :=
  (items.map (fun i => costInUzs rate i * bonusCalcQty i)).sum

/-- `totalBonusProductsValue` (lines 1712-1777): value of the explicitly
recorded giveaway join rows; when none exist, fall back to the zero-price
lines of the transaction (which are additionally recorded as join rows,
a write not modelled here). -/
def totalBonusProductsValue (rate : ℚ) (bps : List BonusProductRec) (items : List BonusCalcItem) : ℚ :=
  if bps.isEmpty then
    (((items.filter (fun i =>
        ((i.sellingPrice.getD i.price = 0) ∨ (i.price = 0)) ∧ i.productId.isSome))).map
      (fun i => (if i.productPrice ≠ 0 then (jsRound (i.productPrice * rate) : ℚ) else 0) * bonusCalcQty i)).sum
  else
    (bps.map (fun bp => (jsRound (bp.productPrice * rate) : ℚ) * bp.quantity)).sum

/-- `transactionNetExtraPool` (line 1868):
`max(0, round(totalPriceDifference) - round(totalBonusProductsValue))`. -/
def transactionNetExtraPool (rate : ℚ) (bps : List BonusProductRec) (items : List BonusCalcItem) : ℤ :=
  max 0 (jsRound (totalPriceDifference rate items) - jsRound (totalBonusProductsValue rate bps items))

/-- Allocated bonus amount of one contributing line (lines 1872-1882):
its share of the net pool times its bonus percentage. -/
def lineBonusAmount (rate : ℚ) (bps : List BonusProductRec) (items : List BonusCalcItem)
    (i : BonusCalcItem) : ℤ :=
  let share :=
    if 0 < totalPriceDifference rate items then
      priceDifferenceOf rate i / totalPriceDifference rate items
    else 0
  let netExtraAmount := jsRound ((transactionNetExtraPool rate bps items : ℚ) * share)
  jsRound ((netExtraAmount : ℚ) * (i.bonusPercentage / 100))

/-- The per-line SALES_BONUS amounts actually created (lines 1855-1925):
one record per line with positive price difference whose allocated bonus
amount is positive. -/
def bonusRecordsOf (rate : ℚ) (bps : List BonusProductRec) (items : List BonusCalcItem) : List ℤ :=
  ((items.filter (fun i => 0 < priceDifferenceOf rate i)).map (lineBonusAmount rate bps items)).filter
    (fun a => 0 < a)

/-- `grossDiffAfterBonusCost` (lines 1933-1935):
`round(sellingTotal) - (round(costTotal) + round(bonusProductsValue))`,
persisted as the transaction's `extraProfit`. -/
def grossDiffAfterBonusCost (rate : ℚ) (bps : List BonusProductRec) (items : List BonusCalcItem) : ℤ :=
  jsRound (totalSellingAll rate items) - (jsRound (totalCostAll rate items) + jsRound (totalBonusProductsValue rate bps items))

/-- The single SALES_PENALTY record (lines 1951-1989): created with amount
`-netDeficit` exactly when `grossDiffAfterBonusCost < 0`. -/
def penaltyOf (rate : ℚ) (bps : List BonusProductRec) (items : List BonusCalcItem) : Option ℤ :=
  if grossDiffAfterBonusCost rate bps items < 0 then
    some (-(|grossDiffAfterBonusCost rate bps items|))
  else none

/-! ### Defective-log `create` (defective-log.service lines 132-433)

The store is modelled as association lists keyed by id; the atomic write
is modelled as `Except`: an error returns the original state (full
rollback), success returns the new state plus the created log record. -/

inductive DLAction
  | DEFECTIVE | FIXED | RETURN | EXCHANGE
  deriving DecidableEq, Repr

inductive CashDir
  | PLUS | MINUS
  deriving DecidableEq, Repr

/-- The create-defective-log request (fields the flow branches on; purely
copied audit fields such as `description` are not modelled). -/
structure DefLogDto where
  productId : ℕ
  quantity : ℚ
  branchId : Option ℕ
  actionType : DLAction
  isFromSale : Bool
  transactionId : Option ℕ
  cashAdjustmentDirection : Option CashDir
  cashAmountInput : Option ℚ
  exchangeWithProductId : Option ℕ
  replacementQuantity : Option ℚ
  replacementUnitPrice : Option ℚ
  deriving DecidableEq, Repr

/-- The created DefectiveLog record (behavior-relevant fields). -/
structure DefLog where
  productId : ℕ
  quantity : ℚ
  cashAmount : ℚ
  actionType : DLAction
  transactionId : Option ℕ
  deriving DecidableEq, Repr

/-- A `TransactionBonusProduct` join row. -/
structure TxBonusProduct where
  transactionId : ℕ
  productId : ℕ
  quantity : ℚ
  deriving DecidableEq, Repr

/-- A Bonus row (only its transaction linkage matters to this flow). -/
structure BonusRow where
  transactionId : ℕ
  deriving DecidableEq, Repr

/-- The relevant slice of the relational store. -/
structure DLState where
  products : List (ℕ × Product)
  branches : List (ℕ × ℚ)
  transactions : List Txn
  txBonusProducts : List TxBonusProduct
  bonuses : List BonusRow
  deriving DecidableEq, Repr

inductive DLErr
  | productNotFound | branchNotFound | invalidQuantity
  | overDeduction | replacementNotFound | replacementInsufficient
  deriving DecidableEq, Repr

def findProduct (s : DLState) (pid : ℕ) : Option Product :=
  (s.products.find? (fun e => e.1 == pid)).map (fun e => e.2)

def setProduct (s : DLState) (pid : ℕ) (p : Product) : DLState :=
  { s with products := s.products.map (fun e => if e.1 = pid then (e.1, p) else e) }

/-- `product.update({ data: { quantity: { increment } } })` inside the
per-giveaway try/catch: a missing product id is silently ignored. -/
def incProductQty (s : DLState) (pid : ℕ) (q : ℚ) : DLState :=
  { s with products := s.products.map (fun e =>
      if e.1 = pid then (e.1, { e.2 with quantity := e.2.quantity + q }) else e) }

def findBranch (s : DLState) (bid : ℕ) : Option ℚ :=
  (s.branches.find? (fun e => e.1 == bid)).map (fun e => e.2)

/-- `branch.update({ data: { cashBalance: { increment: cashAmount } } })`. -/
def incBranchCash (s : DLState) (bid : ℕ) (amt : ℚ) : DLState :=
  { s with branches := s.branches.map (fun e => if e.1 = bid then (e.1, e.2 + amt) else e) }

def findTxn (s : DLState) (tid : ℕ) : Option Txn :=
  s.transactions.find? (fun t => t.id == tid)

def updateItemInTxn (s : DLState) (tid itemId : ℕ) (f : TxItem → TxItem) : DLState :=
  { s with transactions := s.transactions.map (fun t =>
      if t.id = tid then { t with items := t.items.map (fun i => if i.id = itemId then f i else i) } else t) }

def addItemToTxn (s : DLState) (tid : ℕ) (item : TxItem) : DLState :=
  { s with transactions := s.transactions.map (fun t =>
      if t.id = tid then { t with items := t.items ++ [item] } else t) }

def setTxnExtraProfit (s : DLState) (tid : ℕ) (v : ℚ) : DLState :=
  { s with transactions := s.transactions.map (fun t =>
      if t.id = tid then { t with extraProfit := v } else t) }

def deleteTxBonusProducts (s : DLState) (tid : ℕ) : DLState :=
  { s with txBonusProducts := s.txBonusProducts.filter (fun bp => bp.transactionId != tid) }

def deleteBonuses (s : DLState) (tid : ℕ) : DLState :=
  { s with bonuses := s.bonuses.filter (fun b => b.transactionId != tid) }

/-- A fresh item id for the created replacement line. -/
def freshItemId (s : DLState) : ℕ :=
  (s.transactions.foldl (fun acc t => t.items.foldl (fun a i => max a i.id) acc) 0) + 1

/-- RETURN `extraProfit` adjustment (defective-log.service lines 336-344):
`originalQty = Number(orig.quantity) + Number(quantity)` where
`orig.quantity` is the line quantity as read before the item update, i.e.
already the pre-return quantity. -/
def returnNewExtraProfit (extraProfit origItemQuantity returnedQuantity : ℚ) : ℚ :=
  let originalProfit := extraProfit
  let originalQty := origItemQuantity + returnedQuantity
  let proportionalProfit := originalProfit * (returnedQuantity / originalQty)
  max 0 (originalProfit - proportionalProfit)

/-- `cashAmount` of the action switch (lines 164-234).  For RETURN the
explicit cashier override applies only when an amount with `|v| > 0` and a
direction are both supplied; otherwise the refund unit price is taken from
the original sale line when available, else the product price.  The
transaction read for the RETURN refund happens before the atomic block, on
the same state. -/
def returnRefundUnit (dto : DefLogDto) (product : Product) (s : DLState) : ℚ :=
  let line := (dto.transactionId.bind (findTxn s)).bind
    (fun tx => tx.items.find? (fun it => it.productId == dto.productId))
  match line with
  | some it => it.sellingPrice.getD it.price
  | none => product.price

/-- The RETURN refund without an override (lines 198-210): unit price from
the original sale line when linked to one, else the product price. -/
def returnDefaultCash (dto : DefLogDto) (product : Product) (s : DLState) : ℚ :=
  if dto.isFromSale ∧ dto.transactionId.isSome then
    -(returnRefundUnit dto product s * dto.quantity)
  else -(product.price * dto.quantity)

def dlCashAmount (dto : DefLogDto) (product : Product) (s : DLState) : ℚ :=
  match dto.actionType with
  | DLAction.DEFECTIVE => -(product.price * dto.quantity)
  | DLAction.FIXED => product.price * dto.quantity
  | DLAction.RETURN =>
    match dto.cashAmountInput, dto.cashAdjustmentDirection with
    | some v, some dir =>
      if 0 < |v| then (if dir = CashDir.PLUS then |v| else -|v|)
      else returnDefaultCash dto product s
    | _, _ => returnDefaultCash dto product s
  | DLAction.EXCHANGE =>
    match dto.cashAmountInput, dto.cashAdjustmentDirection with
    | some v, some dir => (if dir = CashDir.PLUS then |v| else -|v|)
    | _, _ => product.price * dto.quantity

/-- Product counters/status after the action switch (lines 164-234). -/
def dlProductAfter (dto : DefLogDto) (product : Product) : Product :=
  match dto.actionType with
  | DLAction.DEFECTIVE =>
    let newQuantity := if dto.isFromSale then product.quantity else max 0 (product.quantity - dto.quantity)
    { product with
      quantity := newQuantity,
      defectiveQuantity := product.defectiveQuantity + dto.quantity,
      status := if newQuantity = 0 then ProductStatus.DEFECTIVE else ProductStatus.IN_STORE }
  | DLAction.FIXED =>
    { product with
      defectiveQuantity := max 0 (product.defectiveQuantity - dto.quantity),
      quantity := product.quantity + dto.quantity,
      status := ProductStatus.IN_STORE }
  | DLAction.RETURN =>
    { product with
      returnedQuantity := product.returnedQuantity + dto.quantity,
      status := ProductStatus.RETURNED,
      quantity := product.quantity + dto.quantity }
  | DLAction.EXCHANGE =>
    { product with
      exchangedQuantity := product.exchangedQuantity + dto.quantity,
      status := ProductStatus.EXCHANGED,
      quantity := product.quantity + dto.quantity }

/-- The RETURN/EXCHANGE mutation of the original sale line (lines 293-315):
reduce the remaining quantity; when it reaches 0, zero the line and mark it
RETURNED instead of deleting it. -/
def dlItemMutation (dto : DefLogDto) (tid : ℕ) (orig : TxItem) (s : DLState) : DLState :=
  if dto.actionType = DLAction.RETURN ∨ dto.actionType = DLAction.EXCHANGE then
    let remainingQty := max 0 (orig.quantity - dto.quantity)
    if remainingQty = 0 then
      updateItemInTxn s tid orig.id (fun i =>
        { i with quantity := 0, total := 0, status := ItemStatus.RETURNED })
    else
      let unitPrice := orig.sellingPrice.getD orig.price
      updateItemInTxn s tid orig.id (fun i =>
        { i with quantity := remainingQty, total := remainingQty * unitPrice })
  else s

/-- The RETURN bonus reversal (lines 317-345): restock all of the
transaction's bonus products once, delete the join rows, delete every
bonus row tied to the transaction, and rescale `extraProfit`. -/
def dlReturnReversal (dto : DefLogDto) (tid : ℕ) (tx : Txn) (orig : TxItem) (s1 : DLState) : DLState :=
  if dto.actionType = DLAction.RETURN then
    let txBonusProducts := s1.txBonusProducts.filter (fun bp => bp.transactionId == tid)
    let s2a :=
      if txBonusProducts.isEmpty then s1
      else
        let restocked := txBonusProducts.foldl
          (fun acc bp => incProductQty acc bp.productId bp.quantity) s1
        deleteTxBonusProducts restocked tid
    let s2b := deleteBonuses s2a tid
    setTxnExtraProfit s2b tid (returnNewExtraProfit tx.extraProfit orig.quantity dto.quantity)
  else s1

/-- The EXCHANGE replacement-line handling (lines 348-395): merge or create
the replacement line, then decrement the replacement product's stock with
its existence and quantity guards.  The source's `findFirst ... orderBy
createdAt desc` is modelled as `find?` on the stored item list; the claims
do not depend on which matching line is merged. -/
def dlExchange (dto : DefLogDto) (tid : ℕ) (tx : Txn) (s2 : DLState) : Except DLErr DLState :=
  let replacementQty := max 1 (match dto.replacementQuantity with
    | some r => if r = 0 then dto.quantity else r
    | none => dto.quantity)
  match dto.exchangeWithProductId with
  | none => .error DLErr.replacementNotFound
  | some replProdId =>
    let replPrice := dto.replacementUnitPrice.getD 0
    let txNow := (findTxn s2 tid).getD tx
    let s3 :=
      match txNow.items.find? (fun i => i.productId == replProdId && i.price == replPrice) with
      | some existingRepl =>
        updateItemInTxn s2 tid existingRepl.id (fun i =>
          { i with quantity := existingRepl.quantity + replacementQty,
                   total := (existingRepl.quantity + replacementQty) *
                     (existingRepl.sellingPrice.getD existingRepl.price) })
      | none =>
        addItemToTxn s2 tid
          { id := freshItemId s2, productId := replProdId, quantity := replacementQty,
            price := replPrice, sellingPrice := some replPrice,
            originalPrice := some replPrice, total := replacementQty * replPrice,
            status := ItemStatus.ACTIVE, creditMonth := none, creditPercent := none }
    match findProduct s3 replProdId with
    | none => .error DLErr.replacementNotFound
    | some repl =>
      if repl.quantity < replacementQty then .error DLErr.replacementInsufficient
      else .ok (setProduct s3 replProdId { repl with quantity := max 0 (repl.quantity - replacementQty) })

/-- The sale-linked mutation block inside the atomic write (lines 279-408):
over-deduction guard, original-line mutation, RETURN bonus reversal, and
the EXCHANGE replacement-line handling with its stock guards. -/
def dlSaleLinkedStep (dto : DefLogDto) (s : DLState) : Except DLErr DLState :=
  if dto.isFromSale then
    match dto.transactionId with
    | none => .ok s
    | some tid =>
      match findTxn s tid with
      | none => .ok s
      | some tx =>
        match tx.items.find? (fun i => i.productId == dto.productId) with
        | none => .ok s
        | some orig =>
          if orig.quantity < dto.quantity then .error DLErr.overDeduction
          else
            let s1 := dlItemMutation dto tid orig s
            let s2 := dlReturnReversal dto tid tx orig s1
            if dto.actionType = DLAction.EXCHANGE then dlExchange dto tid tx s2
            else .ok s2
  else .ok s

/-- Embedding of defective-log `create` (lines 132-433): validations, the
action switch, then the atomic write (log insert, product update,
sale-linked mutations, branch cash increment).  A thrown error rolls the
whole write back. -/
def dlCreate (dto : DefLogDto) (s : DLState) : Except DLErr (DLState × DefLog) :=
  match findProduct s dto.productId with
  | none => .error DLErr.productNotFound
  | some product =>
    let branchOk : Bool := match dto.branchId with
      | none => true
      | some bid => (findBranch s bid).isSome
    if branchOk = false then .error DLErr.branchNotFound
    else if dto.actionType = DLAction.DEFECTIVE ∧ ¬ dto.isFromSale ∧ product.quantity < dto.quantity then
      .error DLErr.invalidQuantity
    else
      let cashAmount := dlCashAmount dto product s
      let defectiveLog : DefLog :=
        { productId := dto.productId, quantity := dto.quantity, cashAmount := cashAmount,
          actionType := dto.actionType, transactionId := dto.transactionId }
      let s1 := setProduct s dto.productId (dlProductAfter dto product)
      match dlSaleLinkedStep dto s1 with
      | .error e => .error e
      | .ok s2 =>
        let s3 := match dto.branchId with
          | none => s2
          | some bid => incBranchCash s2 bid cashAmount
        .ok (s3, defectiveLog)

/-- `remainingWithInterest` as recomputed by `recalculatePaymentSchedules`
(lines 80-92), also written back as the transaction's new `finalTotal`. -/
def recalcRemainingWithInterest (tx : Txn) : ℚ :=
  let remainingItems := tx.items.filter (fun item => 0 < item.quantity)
  let remainingPrincipal := max 0 (recalcRemainingTotalPrincipal remainingItems - recalcProportionalUpfront tx)
  let effectivePercent :=
    if 0 < recalcRemainingPercentWeightBase remainingItems then
      recalcRemainingWeightedPercentSum remainingItems / recalcRemainingPercentWeightBase remainingItems
    else 0
  remainingPrincipal + remainingPrincipal * effectivePercent

/-! ### Spec-side formulas (for comparison with the code-side definitions) -/

/-- Spec formula: `Σ(principal·creditPercent)` over items with a creditPercent
set (a creditPercent of 0 counts as not set). -/
def specWeightedNumerator (items : List SaleItem) : ℚ :=
  ((items.filter (fun i => qTruthy i.creditPercent)).map
    (fun i => principalOf i * i.creditPercent.getD 0)).sum

/-- Spec formula: `Σ(principal where creditPercent set)`. -/
def specWeightedDenominator (items : List SaleItem) : ℚ :=
  ((items.filter (fun i => qTruthy i.creditPercent)).map principalOf).sum

/-- Principal of the items without a creditPercent (including creditPercent 0). -/
def specNoPercentPrincipal (items : List SaleItem) : ℚ :=
  ((items.filter (fun i => ! qTruthy i.creditPercent)).map principalOf).sum

/-- Spec formula for the breakdown check: the sum over the supplied entries
with a positive amount and an (uppercased) method among CASH, CARD,
TERMINAL, TOVAR. -/
def specValidBreakdownSum (payments : List PaymentEntry) : ℚ :=
  ((payments.filter (fun p =>
    (0 < p.amount : Bool) && ["CASH", "CARD", "TERMINAL", "TOVAR"].contains (jsToUpperCase p.method))).map
    (fun p => p.amount)).sum

/-! ### Concrete inputs used by the claim theorems and witnesses -/

/-- C1 input: a credit transaction after 1 of the originally 2 sold units
was returned (stored line quantity 1, price 100); the pre-return principal
was 200 and the original upfront payment 100. -/
def c1Tx : Txn :=
  { id := 1, paymentType := PaymentType.CREDIT, amountPaid := 100, total := 200, finalTotal := 220,
    extraProfit := 0,
    items := [{ id := 1, productId := 1, quantity := 1, price := 100, sellingPrice := none,
                originalPrice := none, total := 100, status := ItemStatus.ACTIVE,
                creditMonth := some 3, creditPercent := some (1/10) }] }

/-- C2 witness input: one item, price 10, 3 months, 10% credit percent. -/
def c2Items : List SaleItem :=
  [{ productId := some 1, quantity := 1, price := 10, sellingPrice := none,
     creditMonth := some 3, creditPercent := some (1/10) }]

/-- C2 witness input for the recomputation engine. -/
def c2Tx : Txn :=
  { id := 3, paymentType := PaymentType.INSTALLMENT, amountPaid := 2, total := 10, finalTotal := 11,
    extraProfit := 0,
    items := [{ id := 1, productId := 1, quantity := 1, price := 10, sellingPrice := none,
                originalPrice := none, total := 10, status := ItemStatus.ACTIVE,
                creditMonth := some 3, creditPercent := some (1/10) }] }

/-- C3 input: line 1 sells at 200 against cost 100 with bonusPercentage 50. -/
def c3ItemA : BonusCalcItem :=
  { productId := some 1, quantity := 1, price := 200, sellingPrice := some 200,
    productPrice := 100, bonusPercentage := 50 }

/-- C3 input: line 2 sells at 50 against cost 500 with bonusPercentage 0. -/
def c3ItemB : BonusCalcItem :=
  { productId := some 2, quantity := 1, price := 50, sellingPrice := some 50,
    productPrice := 500, bonusPercentage := 0 }

/-- C3 input: both lines; rate 1, no explicit giveaways. -/
def c3Items : List BonusCalcItem := [c3ItemA, c3ItemB]

/-- C4 input product. -/
def c4Product : Product :=
  { quantity := 10, defectiveQuantity := 0, returnedQuantity := 0, exchangedQuantity := 0,
    price := 100, status := ProductStatus.IN_STORE }

/-- C4 input: a sale with one line of quantity 2 and `extraProfit` 90. -/
def c4Tx : Txn :=
  { id := 7, paymentType := PaymentType.CASH, amountPaid := 0, total := 200, finalTotal := 200,
    extraProfit := 90,
    items := [{ id := 1, productId := 1, quantity := 2, price := 100, sellingPrice := some 100,
                originalPrice := some 100, total := 200, status := ItemStatus.ACTIVE,
                creditMonth := none, creditPercent := none }] }

/-- C4 input store. -/
def c4State : DLState :=
  { products := [(1, c4Product)], branches := [], transactions := [c4Tx],
    txBonusProducts := [], bonuses := [] }

/-- C4 input: return 1 of the 2 sold units. -/
def c4Dto : DefLogDto :=
  { productId := 1, quantity := 1, branchId := none, actionType := DLAction.RETURN,
    isFromSale := true, transactionId := some 7, cashAdjustmentDirection := none,
    cashAmountInput := none, exchangeWithProductId := none, replacementQuantity := none,
    replacementUnitPrice := none }

/-- C5 witness input: one item with creditPercent 1/10, one without, one
with creditPercent 0. -/
def c5Items : List SaleItem :=
  [{ productId := some 1, quantity := 2, price := 100, sellingPrice := none,
     creditMonth := some 3, creditPercent := some (1/10) },
   { productId := some 2, quantity := 1, price := 50, sellingPrice := none,
     creditMonth := none, creditPercent := none },
   { productId := some 3, quantity := 1, price := 30, sellingPrice := none,
     creditMonth := none, creditPercent := some 0 }]

/-- C6 witness inputs: the sold product. -/
def c6P1 : Product :=
  { quantity := 10, defectiveQuantity := 0, returnedQuantity := 0, exchangedQuantity := 0,
    price := 10, status := ProductStatus.IN_STORE }

/-- C6 witness inputs: the bonus (giveaway) product. -/
def c6P2 : Product :=
  { quantity := 5, defectiveQuantity := 0, returnedQuantity := 0, exchangedQuantity := 0,
    price := 20, status := ProductStatus.IN_STORE }

/-- C6 witness inputs: the sold line (quantity 4). -/
def c6Item : TxItem :=
  { id := 1, productId := 1, quantity := 4, price := 10, sellingPrice := some 10,
    originalPrice := some 10, total := 40, status := ItemStatus.ACTIVE,
    creditMonth := none, creditPercent := none }

/-- C6 witness inputs: the sale transaction with a 3-unit giveaway of product 2. -/
def c6Tx : Txn :=
  { id := 7, paymentType := PaymentType.CASH, amountPaid := 0, total := 40, finalTotal := 40,
    extraProfit := 0, items := [c6Item] }

/-- C6 witness inputs: the initial store. -/
def c6S0 : DLState :=
  { products := [(1, c6P1), (2, c6P2)], branches := [(1, 1000)], transactions := [c6Tx],
    txBonusProducts := [{ transactionId := 7, productId := 2, quantity := 3 }],
    bonuses := [{ transactionId := 7 }] }

/-- C6 witness inputs: a sale-linked RETURN of 1 unit. -/
def c6Dto : DefLogDto :=
  { productId := 1, quantity := 1, branchId := some 1, actionType := DLAction.RETURN,
    isFromSale := true, transactionId := some 7, cashAdjustmentDirection := none,
    cashAmountInput := none, exchangeWithProductId := none, replacementQuantity := none,
    replacementUnitPrice := none }

/-- C6: the store after the first RETURN (restock of product 1 and of the
3 giveaway units of product 2, join rows and bonuses deleted, line reduced
to 3, branch cash decreased by the refund 10). -/
def c6S1 : DLState :=
  { products := [(1, { c6P1 with quantity := 11, returnedQuantity := 1, status := ProductStatus.RETURNED }),
                 (2, { c6P2 with quantity := 8 })],
    branches := [(1, 990)],
    transactions := [{ c6Tx with items := [{ c6Item with quantity := 3, total := 30 }] }],
    txBonusProducts := [], bonuses := [] }

/-- C6: the log of the first RETURN. -/
def c6Log1 : DefLog :=
  { productId := 1, quantity := 1, cashAmount := -10, actionType := DLAction.RETURN,
    transactionId := some 7 }

/-- C6: the store after the second identical RETURN: product 2 (the bonus
product) keeps quantity 8 — no second restock. -/
def c6S2 : DLState :=
  { products := [(1, { c6P1 with quantity := 12, returnedQuantity := 2, status := ProductStatus.RETURNED }),
                 (2, { c6P2 with quantity := 8 })],
    branches := [(1, 980)],
    transactions := [{ c6Tx with items := [{ c6Item with quantity := 2, total := 20 }] }],
    txBonusProducts := [], bonuses := [] }

/-- C6: the log of the second RETURN. -/
def c6Log2 : DefLog :=
  { productId := 1, quantity := 1, cashAmount := -10, actionType := DLAction.RETURN,
    transactionId := some 7 }

/-- C7 witness input. -/
def c7Product : Product :=
  { quantity := 5, defectiveQuantity := 0, returnedQuantity := 0, exchangedQuantity := 0,
    price := 10, status := ProductStatus.IN_STORE }

/-- C8 input: a breakdown whose raw sum is 50 but whose filtered sum is 100
(the negative entry is dropped by the code). -/
def c8Payments : List PaymentEntry :=
  [{ method := "CASH", amount := 100 }, { method := "CARD", amount := -50 }]

/-- C9 input: a credit transaction whose single line is fully returned. -/
def c9Tx : Txn :=
  { id := 2, paymentType := PaymentType.CREDIT, amountPaid := 50, total := 100, finalTotal := 110,
    extraProfit := 0,
    items := [{ id := 1, productId := 1, quantity := 0, price := 100, sellingPrice := none,
                originalPrice := none, total := 0, status := ItemStatus.RETURNED,
                creditMonth := some 3, creditPercent := some (1/10) }] }

/-- C9 input: one stored schedule row. -/
def c9Row : ScheduleRow :=
  { transactionId := 2, month := 1, payment := 110, remainingBalance := 0, isPaid := false,
    paidAmount := 0 }

/-- C10 witness input product (2 in store, 5 defective, price 7). -/
def c10Product : Product :=
  { quantity := 2, defectiveQuantity := 5, returnedQuantity := 0, exchangedQuantity := 0,
    price := 7, status := ProductStatus.DEFECTIVE }

/-- C10 witness input store. -/
def c10S : DLState :=
  { products := [(1, c10Product)], branches := [(3, 100)], transactions := [],
    txBonusProducts := [], bonuses := [] }

/-- C10 witness input: FIXED action for 2 units against branch 3. -/
def c10Dto : DefLogDto :=
  { productId := 1, quantity := 2, branchId := some 3, actionType := DLAction.FIXED,
    isFromSale := false, transactionId := none, cashAdjustmentDirection := none,
    cashAmountInput := none, exchangeWithProductId := none, replacementQuantity := none,
    replacementUnitPrice := none }

/-- C10: the store after the FIXED action (cash 7*2 = 14 enters branch 3). -/
def c10S1 : DLState :=
  { products := [(1, { c10Product with quantity := 4, defectiveQuantity := 3, status := ProductStatus.IN_STORE })],
    branches := [(3, 114)], transactions := [], txBonusProducts := [], bonuses := [] }

/-- C10: the log of the FIXED action. -/
def c10Log : DefLog :=
  { productId := 1, quantity := 2, cashAmount := 14, actionType := DLAction.FIXED,
    transactionId := none }

/-! ## Helper lemmas about the schedule emission loop -/

theorem scheduleRowsAux_cons (txId n : ℕ) (mp : ℚ) (fuel : ℕ) (bal : ℚ) :
    scheduleRowsAux txId n mp (fuel + 1) bal =
      { transactionId := txId, month := n - fuel,
        payment := if n - fuel = n then bal else mp,
        remainingBalance := max 0 (bal - (if n - fuel = n then bal else mp)),
        isPaid := false, paidAmount := 0 }
        :: scheduleRowsAux txId n mp fuel (bal - (if n - fuel = n then bal else mp)) := rfl

theorem scheduleRowsAux_payment_sum (txId n : ℕ) (mp : ℚ) :
    ∀ (fuel : ℕ) (bal : ℚ),
      ((scheduleRowsAux txId n mp (fuel + 1) bal).map (fun r => r.payment)).sum = bal := by
  intro fuel
  induction fuel with
  | zero =>
    intro bal
    rw [scheduleRowsAux_cons]
    simp [scheduleRowsAux]
  | succ k ih =>
    intro bal
    rw [scheduleRowsAux_cons, List.map_cons, List.sum_cons, ih]
    ring

theorem scheduleRowsAux_last_rb (txId n : ℕ) (mp : ℚ) :
    ∀ (fuel : ℕ) (bal : ℚ),
      ((scheduleRowsAux txId n mp (fuel + 1) bal).getLast?).map (fun r => r.remainingBalance)
        = some 0 := by
  intro fuel
  induction fuel with
  | zero =>
    intro bal
    rw [scheduleRowsAux_cons]
    simp [scheduleRowsAux]
  | succ k ih =>
    intro bal
    rw [scheduleRowsAux_cons, scheduleRowsAux_cons, List.getLast?_cons_cons, ← scheduleRowsAux_cons]
    exact ih _

theorem createPaymentSchedule_eq_of_pos (txId : ℕ) (items : List SaleItem) (dp : ℚ)
    (h1 : 0 < totalPrincipalOf items) (h2 : 0 < totalMonthsOf items) :
    createPaymentSchedule txId items dp =
      scheduleRowsAux txId (totalMonthsOf items)
        (scheduleRemainingWithInterest items dp / (totalMonthsOf items : ℚ))
        (totalMonthsOf items) (scheduleRemainingWithInterest items dp) := by
  simp only [createPaymentSchedule, scheduleRemainingWithInterest]
  rw [if_pos ⟨h1, h2⟩]

theorem recalc_eq_of_pos (tx : Txn) (schedules : List ScheduleRow)
    (hpt : tx.paymentType = PaymentType.CREDIT ∨ tx.paymentType = PaymentType.INSTALLMENT)
    (hr : 0 < recalcRemainingTotalPrincipal (tx.items.filter (fun item => 0 < item.quantity)))
    (hm : 0 < recalcTotalMonths tx.items) :
    recalculatePaymentSchedules tx schedules =
      (scheduleRowsAux tx.id (recalcTotalMonths tx.items)
        (recalcRemainingWithInterest tx / (recalcTotalMonths tx.items : ℚ))
        (recalcTotalMonths tx.items) (recalcRemainingWithInterest tx),
       recalcRemainingTotalPrincipal (tx.items.filter (fun item => 0 < item.quantity)),
       recalcRemainingWithInterest tx) := by
  have hne : (tx.items.filter (fun item => 0 < item.quantity)).isEmpty = false := by
    cases hcase : (tx.items.filter (fun item => 0 < item.quantity)).isEmpty
    · rfl
    · rw [List.isEmpty_iff] at hcase
      rw [hcase] at hr
      simp [recalcRemainingTotalPrincipal] at hr
  simp only [recalculatePaymentSchedules, recalcProportionalUpfront, recalcRemainingWithInterest]
  rw [if_neg (not_not_intro hpt), hne]
  simp only [Bool.false_eq_true, if_false]
  rw [if_pos ⟨hr, hm⟩]

/-! ## C1 -/

/-- C1: the "pre-return original principal" recovered by
`recalculatePaymentSchedules` is computed from the current (post-return)
quantities, so the proportional re-apportionment never happens.  On `c1Tx`
(pre-return principal 200, of which 100 remains, original upfront 100) the
claimed value is `100 × (100/200) = 50`, but the code applies the full
original upfront payment of 100. -/
theorem c1_upfront_not_rescaled :
    recalcProportionalUpfront c1Tx = 100 ∧ recalcProportionalUpfront c1Tx ≠ 50 := by
  constructor <;>
    norm_num [recalcProportionalUpfront, recalcOriginalTotalPrincipal,
      recalcRemainingTotalPrincipal, c1Tx]

/-! ## C2 -/

/-- C2: for every monthly credit/installment schedule generated by the
engine with positive principal and a term of at least one month — at sale
creation (`createPaymentSchedule`) and at recomputation
(`recalculatePaymentSchedules`) — the sum of the `payment` fields equals
`remainingWithInterest` exactly (at recomputation this is the value also
stored as the new `finalTotal`), and the final row's `remainingBalance` is
exactly 0. -/
theorem c2_schedule_sum_invariant :
    (∀ (txId : ℕ) (items : List SaleItem) (downPayment : ℚ),
      0 < totalPrincipalOf items → 0 < totalMonthsOf items →
      ((createPaymentSchedule txId items downPayment).map (fun r => r.payment)).sum
          = scheduleRemainingWithInterest items downPayment
        ∧ ((createPaymentSchedule txId items downPayment).getLast?).map
            (fun r => r.remainingBalance) = some 0)
    ∧ (∀ (tx : Txn) (schedules : List ScheduleRow),
      (tx.paymentType = PaymentType.CREDIT ∨ tx.paymentType = PaymentType.INSTALLMENT) →
      0 < recalcRemainingTotalPrincipal (tx.items.filter (fun item => 0 < item.quantity)) →
      0 < recalcTotalMonths tx.items →
      ((recalculatePaymentSchedules tx schedules).1.map (fun r => r.payment)).sum
          = (recalculatePaymentSchedules tx schedules).2.2
        ∧ ((recalculatePaymentSchedules tx schedules).1.getLast?).map
            (fun r => r.remainingBalance) = some 0) := by
  constructor
  · intro txId items dp h1 h2
    obtain ⟨k, hk⟩ : ∃ k, totalMonthsOf items = k + 1 :=
      ⟨totalMonthsOf items - 1, (Nat.succ_pred_eq_of_pos h2).symm⟩
    rw [createPaymentSchedule_eq_of_pos txId items dp h1 h2, hk]
    exact ⟨scheduleRowsAux_payment_sum _ _ _ _ _, scheduleRowsAux_last_rb _ _ _ _ _⟩
  · intro tx schedules hpt hr hm
    obtain ⟨k, hk⟩ : ∃ k, recalcTotalMonths tx.items = k + 1 :=
      ⟨recalcTotalMonths tx.items - 1, (Nat.succ_pred_eq_of_pos hm).symm⟩
    rw [recalc_eq_of_pos tx schedules hpt hr hm]
    simp only [hk]
    exact ⟨scheduleRowsAux_payment_sum _ _ _ _ _, scheduleRowsAux_last_rb _ _ _ _ _⟩

/-- C2 witness: concrete instantiation of both engines (price 10, 3 months,
10% percent, down payment 0 at creation and 2 at recomputation). -/
theorem c2_schedule_sum_invariant_witness :
    (((createPaymentSchedule 1 c2Items 0).map (fun r => r.payment)).sum
        = scheduleRemainingWithInterest c2Items 0
      ∧ ((createPaymentSchedule 1 c2Items 0).getLast?).map (fun r => r.remainingBalance) = some 0)
    ∧ (((recalculatePaymentSchedules c2Tx []).1.map (fun r => r.payment)).sum
        = (recalculatePaymentSchedules c2Tx []).2.2
      ∧ ((recalculatePaymentSchedules c2Tx []).1.getLast?).map
          (fun r => r.remainingBalance) = some 0) :=
  ⟨c2_schedule_sum_invariant.1 1 c2Items 0
      (by norm_num [totalPrincipalOf, principalOf, c2Items]) (by decide),
   c2_schedule_sum_invariant.2 c2Tx []
      (Or.inr rfl)
      (by norm_num [recalcRemainingTotalPrincipal, c2Tx])
      (by decide)⟩

/-! ## C9 -/

/-- C9 counterexample: recomputation on a credit transaction whose items
all have quantity 0 is not a no-op for the stored schedule rows — the
existing rows are deleted (the deletion happens before the
remaining-items check). -/
theorem c9_rows_deleted_counterexample :
    (recalculatePaymentSchedules c9Tx [c9Row]).1 = [] ∧ [c9Row] ≠ ([] : List ScheduleRow) := by
  constructor
  · norm_num [recalculatePaymentSchedules, c9Tx]
  · simp

/-- C9 amended: recomputation on a credit/installment transaction whose
items all have quantity 0 deletes any stored schedule rows, creates none,
and leaves `total` and `finalTotal` unchanged. -/
theorem c9_amended_zero_items (tx : Txn) (schedules : List ScheduleRow)
    (hpt : tx.paymentType = PaymentType.CREDIT ∨ tx.paymentType = PaymentType.INSTALLMENT)
    (hq : ∀ i ∈ tx.items, i.quantity = 0) :
    recalculatePaymentSchedules tx schedules = ([], tx.total, tx.finalTotal) := by
  have hfil : tx.items.filter (fun item => 0 < item.quantity) = [] := by
    rw [List.filter_eq_nil_iff]
    intro a ha
    simp [hq a ha]
  simp only [recalculatePaymentSchedules]
  rw [if_neg (not_not_intro hpt), hfil]
  simp

/-- C9 witness: the amended statement at the concrete fully-returned
transaction. -/
theorem c9_amended_zero_items_witness :
    recalculatePaymentSchedules c9Tx [c9Row] = ([], c9Tx.total, c9Tx.finalTotal) :=
  c9_amended_zero_items c9Tx [c9Row] (Or.inl rfl) (by simp [c9Tx])

/-! ## Helper lemmas about conditional sums -/

theorem sum_map_ite_eq_filter {α : Type} (p : α → Bool) (f : α → ℚ) (l : List α) :
    (l.map (fun a => if p a then f a else 0)).sum = ((l.filter p).map f).sum := by
  induction l with
  | nil => rfl
  | cons a t ih =>
    by_cases h : p a
    · simp [List.filter_cons, h, ih]
    · simp [List.filter_cons, h, ih]

theorem sum_map_split_filter {α : Type} (p : α → Bool) (f : α → ℚ) (l : List α) :
    (l.map f).sum = ((l.filter p).map f).sum + ((l.filter (fun a => ! p a)).map f).sum := by
  induction l with
  | nil => simp
  | cons a t ih =>
    by_cases h : p a
    · simp [List.filter_cons, h, ih]
      ring
    · simp [List.filter_cons, h, ih]
      ring

theorem sum_zero_of_nonneg (l : List ℚ) (h : ∀ x ∈ l, 0 ≤ x) (hs : l.sum = 0) :
    ∀ x ∈ l, x = 0 := by
  induction l with
  | nil => simp
  | cons a t ih =>
    have hts : 0 ≤ t.sum := List.sum_nonneg (fun x hx => h x (List.mem_cons_of_mem _ hx))
    have ha : 0 ≤ a := h a (List.mem_cons_self _ _)
    rw [List.sum_cons] at hs
    have ha0 : a = 0 := by linarith
    have ht0 : t.sum = 0 := by linarith
    intro x hx
    rcases List.mem_cons.mp hx with rfl | hx'
    · exact ha0
    · exact ih (fun y hy => h y (List.mem_cons_of_mem _ hy)) ht0 x hx'

/-! ## C5 -/

/-- C5: the blended rate equals `Σ(principal·creditPercent) / Σ(principal
where creditPercent set)` (in particular, `0/0 = 0` when no item carries a
percent), where an item whose creditPercent is absent or 0 is excluded
from both sums; and `totalPrincipal` is the full sum, i.e. the excluded
items' principal still counts towards it. -/
theorem c5_blended_rate (items : List SaleItem)
    (hp : ∀ i ∈ items, 0 ≤ i.price) (hq : ∀ i ∈ items, 0 ≤ i.quantity) :
    effectivePercentOf items = specWeightedNumerator items / specWeightedDenominator items
    ∧ totalPrincipalOf items = specWeightedDenominator items + specNoPercentPrincipal items := by
  have hnum : weightedPercentSumOf items = specWeightedNumerator items :=
    sum_map_ite_eq_filter (fun (i : SaleItem) => qTruthy i.creditPercent)
      (fun (i : SaleItem) => principalOf i * i.creditPercent.getD 0) items
  have hden : percentWeightBaseOf items = specWeightedDenominator items :=
    sum_map_ite_eq_filter (fun (i : SaleItem) => qTruthy i.creditPercent)
      (fun (i : SaleItem) => principalOf i) items
  constructor
  · unfold effectivePercentOf
    by_cases hpos : 0 < percentWeightBaseOf items
    · rw [if_pos hpos, hnum, hden]
    · rw [if_neg hpos]
      have hpnn : ∀ x ∈ (items.filter (fun i => qTruthy i.creditPercent)).map principalOf, 0 ≤ x := by
        intro x hx
        obtain ⟨i, hi, rfl⟩ := List.mem_map.mp hx
        have hmem := (List.mem_filter.mp hi).1
        exact mul_nonneg (hp i hmem) (hq i hmem)
      have hdz : specWeightedDenominator items = 0 := by
        rw [← hden]
        have h1 : percentWeightBaseOf items ≤ 0 := not_lt.mp hpos
        have h2 : 0 ≤ percentWeightBaseOf items := by
          rw [hden]
          exact List.sum_nonneg hpnn
        linarith
      have hz : ∀ i ∈ items.filter (fun i => qTruthy i.creditPercent), principalOf i = 0 := by
        intro i hi
        exact sum_zero_of_nonneg _ hpnn hdz _ (List.mem_map.mpr ⟨i, hi, rfl⟩)
      have hn0 : specWeightedNumerator items = 0 := by
        unfold specWeightedNumerator
        apply List.sum_eq_zero
        intro x hx
        obtain ⟨i, hi, rfl⟩ := List.mem_map.mp hx
        rw [hz i hi, zero_mul]
      rw [hn0, zero_div]
  · have hsplit := sum_map_split_filter (fun i => qTruthy i.creditPercent) principalOf items
    exact hsplit

/-- C5 witness: items with percent 1/10, no percent, and percent 0. -/
theorem c5_blended_rate_witness :
    effectivePercentOf c5Items = specWeightedNumerator c5Items / specWeightedDenominator c5Items
    ∧ totalPrincipalOf c5Items = specWeightedDenominator c5Items + specNoPercentPrincipal c5Items :=
  c5_blended_rate c5Items (by norm_num [c5Items]) (by norm_num [c5Items])

/-! ## C7 -/

/-- C7: the per-product stock update of a SALE sets the quantity to
`max(0, quantity - itemQuantity)` with status SOLD exactly when the new
quantity is 0 and IN_STORE otherwise; a PURCHASE adds the item quantity
and sets status IN_WAREHOUSE. -/
theorem c7_stock_update (product : Product) (itemQuantity : ℚ) :
    ((updateProductQuantityStep TransactionType.SALE product itemQuantity).quantity
        = max 0 (product.quantity - itemQuantity)
      ∧ ((updateProductQuantityStep TransactionType.SALE product itemQuantity).quantity = 0 →
          (updateProductQuantityStep TransactionType.SALE product itemQuantity).status
            = ProductStatus.SOLD)
      ∧ ((updateProductQuantityStep TransactionType.SALE product itemQuantity).quantity ≠ 0 →
          (updateProductQuantityStep TransactionType.SALE product itemQuantity).status
            = ProductStatus.IN_STORE))
    ∧ ((updateProductQuantityStep TransactionType.PURCHASE product itemQuantity).quantity
        = product.quantity + itemQuantity
      ∧ (updateProductQuantityStep TransactionType.PURCHASE product itemQuantity).status
          = ProductStatus.IN_WAREHOUSE) := by
  exact ⟨⟨rfl, fun h => if_pos h, fun h => if_neg h⟩, rfl, rfl⟩

/-- C7 witness: selling the full stock yields status SOLD; a purchase adds
to the quantity. -/
theorem c7_stock_update_witness :
    (updateProductQuantityStep TransactionType.SALE c7Product 5).status = ProductStatus.SOLD
    ∧ (updateProductQuantityStep TransactionType.PURCHASE c7Product 2).quantity
        = c7Product.quantity + 2 :=
  ⟨(c7_stock_update c7Product 5).1.2.1 (by norm_num [updateProductQuantityStep, c7Product]),
   (c7_stock_update c7Product 2).2.1⟩

/-! ## C8 -/

/-- C8 counterexample: a breakdown `[CASH 100, CARD -50]` against an item
total of 50.  Its raw sum is 50, equal to the total after rounding, so the
claim says creation proceeds — but the code drops the non-positive entry
before summing and rejects. -/
theorem c8_breakdown_counterexample :
    paymentsValidationFails c8Payments 50 = true
    ∧ jsRound ((c8Payments.map (fun p => p.amount)).sum) = jsRound (50 : ℚ) := by
  have e1 : jsToUpperCase "CASH" = "CASH" := by decide
  have e2 : jsToUpperCase "CARD" = "CARD" := by decide
  constructor
  · norm_num [paymentsValidationFails, totalPayments, paymentsData, c8Payments, jsRound, e1, e2]
  · norm_num [c8Payments, jsRound]

theorem totalPayments_eq_specValidBreakdownSum (payments : List PaymentEntry) :
    totalPayments payments = specValidBreakdownSum payments := by
  unfold totalPayments specValidBreakdownSum paymentsData
  induction payments with
  | nil => rfl
  | cons p t ih =>
    simp only [List.map_cons, List.filter_cons]
    split
    · simp only [List.map_cons, List.sum_cons, ih]
    · exact ih

/-- C8 amended: when a breakdown is supplied, creation fails with the
validation error iff the total of the breakdown's entries with positive
amount and method among CASH/CARD/TERMINAL/TOVAR differs from the item
total after rounding both to the nearest integer unit. -/
theorem c8_breakdown_amended (payments : List PaymentEntry) (computedTotal : ℚ) :
    paymentsValidationFails payments computedTotal = true ↔
      (payments ≠ [] ∧ jsRound computedTotal ≠ jsRound (specValidBreakdownSum payments)) := by
  unfold paymentsValidationFails
  rcases payments with _ | ⟨p, t⟩
  · simp
  · rw [← totalPayments_eq_specValidBreakdownSum]
    simp [bne_iff_ne]

/-! ## C3 -/

theorem c3_eval :
    bonusRecordsOf 1 [] c3Items = [50] ∧ penaltyOf 1 [] c3Items = some (-350) := by
  have hsA : sellingPriceUzs 1 c3ItemA = 200 := by
    norm_num [sellingPriceUzs, c3ItemA, jsRound, max_def]
  have hsB : sellingPriceUzs 1 c3ItemB = 50 := by
    norm_num [sellingPriceUzs, c3ItemB, jsRound, max_def]
  have hcA : costInUzs 1 c3ItemA = 100 := by
    norm_num [costInUzs, c3ItemA, jsRound]
  have hcB : costInUzs 1 c3ItemB = 500 := by
    norm_num [costInUzs, c3ItemB, jsRound]
  have hqA : bonusCalcQty c3ItemA = 1 := by norm_num [bonusCalcQty, c3ItemA]
  have hqB : bonusCalcQty c3ItemB = 1 := by norm_num [bonusCalcQty, c3ItemB]
  have hpdA : priceDifferenceOf 1 c3ItemA = 100 := by
    unfold priceDifferenceOf
    rw [hsA, hcA, hqA]
    norm_num [c3ItemA]
  have hpdB : priceDifferenceOf 1 c3ItemB = 0 := by
    unfold priceDifferenceOf
    rw [hsB, hcB]
    norm_num
  have htpd : totalPriceDifference 1 [c3ItemA, c3ItemB] = 100 := by
    norm_num [totalPriceDifference, hpdA, hpdB]
  have htbv : totalBonusProductsValue 1 [] [c3ItemA, c3ItemB] = 0 := by
    norm_num [totalBonusProductsValue, c3ItemA, c3ItemB]
  have hpool : transactionNetExtraPool 1 [] [c3ItemA, c3ItemB] = 100 := by
    unfold transactionNetExtraPool
    rw [htpd, htbv]
    norm_num [jsRound, max_def]
  have hba : lineBonusAmount 1 [] [c3ItemA, c3ItemB] c3ItemA = 50 := by
    simp only [lineBonusAmount]
    rw [htpd, hpdA, hpool]
    norm_num [jsRound, c3ItemA]
  have hsell : totalSellingAll 1 [c3ItemA, c3ItemB] = 250 := by
    norm_num [totalSellingAll, hsA, hsB, hqA, hqB]
  have hcost : totalCostAll 1 [c3ItemA, c3ItemB] = 600 := by
    norm_num [totalCostAll, hcA, hcB, hqA, hqB]
  have hgd : grossDiffAfterBonusCost 1 [] [c3ItemA, c3ItemB] = -350 := by
    unfold grossDiffAfterBonusCost
    rw [hsell, hcost, htbv]
    norm_num [jsRound]
  constructor
  · show bonusRecordsOf 1 [] [c3ItemA, c3ItemB] = [50]
    unfold bonusRecordsOf
    norm_num [List.filter_cons, hpdA, hpdB, hba]
  · show penaltyOf 1 [] [c3ItemA, c3ItemB] = some (-350)
    unfold penaltyOf
    rw [hgd]
    norm_num

/-- C3 counterexample: on `c3Items` (one line far above cost with a bonus
percentage, one line far below cost) the calculator creates a per-line
bonus record of 50 AND the single penalty record of -350 for the same
transaction, refuting "never both" (and refuting "bonuses only when gross
margin ≥ 0", since the gross margin here is -350 < 0). -/
theorem c3_both_bonus_and_penalty_counterexample :
    bonusRecordsOf 1 [] c3Items = [50] ∧ penaltyOf 1 [] c3Items = some (-350) :=
  ⟨c3_eval.1, c3_eval.2⟩

/-- C3 amended: the single penalty record (with negative amount) is created
exactly when the transaction-level gross margin net of bonus-product cost
is negative, and per-line bonus records are those lines whose allocated
net-pool amount is positive — both kinds can be created for the same
transaction. -/
theorem c3_bonus_penalty_amended (rate : ℚ) (bps : List BonusProductRec)
    (items : List BonusCalcItem) :
    ((penaltyOf rate bps items).isSome ↔ grossDiffAfterBonusCost rate bps items < 0)
    ∧ (∀ a ∈ penaltyOf rate bps items, a < 0)
    ∧ (∀ b ∈ bonusRecordsOf rate bps items, 0 < b) := by
  refine ⟨?_, ?_, ?_⟩
  · unfold penaltyOf
    by_cases h : grossDiffAfterBonusCost rate bps items < 0
    · simp [h]
    · simp [h]
  · intro a ha
    unfold penaltyOf at ha
    by_cases h : grossDiffAfterBonusCost rate bps items < 0
    · rw [if_pos h, Option.mem_def] at ha
      injection ha with ha
      rw [← ha]
      have habs : 0 < |grossDiffAfterBonusCost rate bps items| := abs_pos.mpr (ne_of_lt h)
      linarith
    · rw [if_neg h] at ha
      simp at ha
  · intro b hb
    unfold bonusRecordsOf at hb
    have := List.of_mem_filter hb
    simpa using this

/-- C3 witness: the amended statement instantiated on the concrete
transaction that produces both a bonus record (50) and the penalty (-350). -/
theorem c3_bonus_penalty_amended_witness :
    ((-350 : ℤ) ∈ penaltyOf 1 [] c3Items ∧ (-350 : ℤ) < 0)
    ∧ ((50 : ℤ) ∈ bonusRecordsOf 1 [] c3Items ∧ (0 : ℤ) < 50) := by
  have hmain := c3_bonus_penalty_amended 1 [] c3Items
  exact ⟨⟨by rw [c3_eval.2]; simp, hmain.2.1 (-350) (by rw [c3_eval.2]; simp)⟩,
         ⟨by rw [c3_eval.1]; simp, hmain.2.2 50 (by rw [c3_eval.1]; simp)⟩⟩

/-! ## C4 -/

/-- C4: on a RETURN of 1 unit from a line whose pre-return quantity is 2,
with `extraProfit` 90, the code divides by `orig.quantity + quantity = 3`
(where `orig.quantity` is already the pre-return quantity), leaving
`extraProfit` 60, whereas the claimed formula `90 × (1/2)` floored at 0
yields 45. -/
theorem c4_extra_profit_wrong_denominator :
    returnNewExtraProfit 90 2 1 = 60 ∧ max 0 ((90 : ℚ) - 90 * (1 / 2)) = 45 := by
  constructor
  · norm_num [returnNewExtraProfit, max_def]
  · norm_num [max_def]

/-! ## Helper lemmas about the store model -/

theorem find?_map_keyed {β : Type} (l : List (ℕ × β)) (g : ℕ × β → ℕ × β)
    (hkey : ∀ e, (g e).1 = e.1) (pid : ℕ) (hfix : ∀ e, e.1 = pid → g e = e) :
    (l.map g).find? (fun e => e.1 == pid) = l.find? (fun e => e.1 == pid) := by
  induction l with
  | nil => rfl
  | cons a t ih =>
    rw [List.map_cons]
    by_cases h : (a.1 == pid) = true
    · have hga : ((g a).1 == pid) = true := by rw [hkey a]; exact h
      simp only [List.find?, hga, h]
      rw [hfix a (beq_iff_eq.mp h)]
    · have h' : (a.1 == pid) = false := by simpa using h
      have hga : ((g a).1 == pid) = false := by rw [hkey a]; exact h'
      simp only [List.find?, hga, h']
      exact ih

theorem find?_map_keyed_self {β : Type} (l : List (ℕ × β)) (f : β → β) (bid : ℕ) :
    ((l.map (fun e => if e.1 = bid then (e.1, f e.2) else e)).find? (fun e => e.1 == bid))
      = (l.find? (fun e => e.1 == bid)).map (fun e => (e.1, f e.2)) := by
  induction l with
  | nil => rfl
  | cons a t ih =>
    rw [List.map_cons]
    by_cases h : a.1 = bid
    · have hb : (a.1 == bid) = true := beq_iff_eq.mpr h
      rw [if_pos h]
      simp only [List.find?, hb]
      rfl
    · have hb : (a.1 == bid) = false := by simpa using h
      rw [if_neg h]
      simp only [List.find?, hb]
      exact ih

theorem updateItemInTxn_txBonusProducts (s : DLState) (tid itemId : ℕ) (f : TxItem → TxItem) :
    (updateItemInTxn s tid itemId f).txBonusProducts = s.txBonusProducts := rfl

theorem restock_branches (rows : List TxBonusProduct) (s : DLState) :
    (rows.foldl (fun acc bp => incProductQty acc bp.productId bp.quantity) s).branches
      = s.branches := by
  induction rows generalizing s with
  | nil => rfl
  | cons bp t ih =>
    rw [List.foldl_cons, ih]
    rfl

theorem restock_txBonusProducts (rows : List TxBonusProduct) (s : DLState) :
    (rows.foldl (fun acc bp => incProductQty acc bp.productId bp.quantity) s).txBonusProducts
      = s.txBonusProducts := by
  induction rows generalizing s with
  | nil => rfl
  | cons bp t ih =>
    rw [List.foldl_cons, ih]
    rfl

theorem filter_eq_of_filter_ne (l : List TxBonusProduct) (tid : ℕ) :
    (l.filter (fun bp => bp.transactionId != tid)).filter (fun bp => bp.transactionId == tid)
      = [] := by
  rw [List.filter_filter]
  apply List.filter_eq_nil_iff.mpr
  intro a _
  simp [bne]

theorem findBranch_incBranchCash (s : DLState) (bid : ℕ) (amt : ℚ) :
    findBranch (incBranchCash s bid amt) bid = (findBranch s bid).map (fun c => c + amt) := by
  unfold findBranch incBranchCash
  rw [show ({ s with branches := s.branches.map (fun e => if e.1 = bid then (e.1, e.2 + amt) else e) } : DLState).branches
      = s.branches.map (fun e => if e.1 = bid then (e.1, e.2 + amt) else e) from rfl]
  rw [find?_map_keyed_self s.branches (fun c => c + amt) bid]
  cases s.branches.find? (fun e => e.1 == bid) <;> rfl

theorem findProduct_setProduct_ne (s : DLState) (pid0 pid : ℕ) (p : Product) (h : pid ≠ pid0) :
    findProduct (setProduct s pid0 p) pid = findProduct s pid := by
  unfold findProduct setProduct
  dsimp only
  rw [find?_map_keyed s.products (fun e => if e.1 = pid0 then (e.1, p) else e) ?_ pid ?_]
  · intro e
    by_cases he : e.1 = pid0 <;> simp [he]
  · intro e he
    simp [he, h]

theorem findTxn_setProduct (s : DLState) (pid : ℕ) (p : Product) (tid : ℕ) :
    findTxn (setProduct s pid p) tid = findTxn s tid := rfl

theorem dlItemMutation_branches (dto : DefLogDto) (tid : ℕ) (orig : TxItem) (s : DLState) :
    (dlItemMutation dto tid orig s).branches = s.branches := by
  simp only [dlItemMutation]
  repeat' split
  all_goals rfl

theorem dlItemMutation_products (dto : DefLogDto) (tid : ℕ) (orig : TxItem) (s : DLState) :
    (dlItemMutation dto tid orig s).products = s.products := by
  simp only [dlItemMutation]
  repeat' split
  all_goals rfl

theorem dlItemMutation_txBonusProducts (dto : DefLogDto) (tid : ℕ) (orig : TxItem) (s : DLState) :
    (dlItemMutation dto tid orig s).txBonusProducts = s.txBonusProducts := by
  simp only [dlItemMutation]
  repeat' split
  all_goals rfl

theorem dlReturnReversal_branches (dto : DefLogDto) (tid : ℕ) (tx : Txn) (orig : TxItem)
    (s : DLState) : (dlReturnReversal dto tid tx orig s).branches = s.branches := by
  simp only [dlReturnReversal]
  repeat' split
  all_goals simp [setTxnExtraProfit, deleteBonuses, deleteTxBonusProducts, restock_branches]

theorem dlReturnReversal_products_of_empty (dto : DefLogDto) (tid : ℕ) (tx : Txn) (orig : TxItem)
    (s : DLState)
    (hrows : s.txBonusProducts.filter (fun bp => bp.transactionId == tid) = []) :
    (dlReturnReversal dto tid tx orig s).products = s.products := by
  simp only [dlReturnReversal]
  split
  · rw [hrows]
    rfl
  · rfl

theorem dlReturnReversal_rows_deleted (dto : DefLogDto) (tid : ℕ) (tx : Txn) (orig : TxItem)
    (s : DLState) (ha : dto.actionType = DLAction.RETURN) :
    (dlReturnReversal dto tid tx orig s).txBonusProducts.filter
      (fun bp => bp.transactionId == tid) = [] := by
  simp only [dlReturnReversal]
  rw [if_pos ha]
  simp only [setTxnExtraProfit, deleteBonuses]
  split
  · rename_i hEmp
    rw [List.isEmpty_iff] at hEmp
    exact hEmp
  · simp only [deleteTxBonusProducts, restock_txBonusProducts]
    exact filter_eq_of_filter_ne _ tid

theorem dlExchange_ok_branches (dto : DefLogDto) (tid : ℕ) (tx : Txn) (s₂ s₃ : DLState)
    (h : dlExchange dto tid tx s₂ = .ok s₃) : s₃.branches = s₂.branches := by
  simp only [dlExchange] at h
  repeat' split at h
  all_goals first
    | exact Except.noConfusion h
    | (cases h
       simp only [setProduct]
       simp [updateItemInTxn, addItemToTxn])

/-- Every successful run of the sale-linked block leaves the branch table
untouched. -/
theorem dlSaleLinkedStep_ok_branches (dto : DefLogDto) (s s₂ : DLState)
    (h : dlSaleLinkedStep dto s = .ok s₂) : s₂.branches = s.branches := by
  simp only [dlSaleLinkedStep] at h
  repeat' split at h
  all_goals first
    | exact Except.noConfusion h
    | (cases h; rfl)
    | (cases h
       rw [dlReturnReversal_branches, dlItemMutation_branches])
    | (rw [dlExchange_ok_branches _ _ _ _ _ h, dlReturnReversal_branches,
        dlItemMutation_branches])

/-- A successful sale-linked RETURN that found the transaction and the
original line leaves no TransactionBonusProduct row for that transaction. -/
theorem dlSaleLinkedStep_return_deletes (dto : DefLogDto) (s s₂ : DLState) (tid : ℕ)
    (tx : Txn) (orig : TxItem)
    (ha : dto.actionType = DLAction.RETURN) (hfs : dto.isFromSale = true)
    (htid : dto.transactionId = some tid)
    (htx : findTxn s tid = some tx)
    (horig : tx.items.find? (fun i => i.productId == dto.productId) = some orig)
    (h : dlSaleLinkedStep dto s = .ok s₂) :
    s₂.txBonusProducts.filter (fun bp => bp.transactionId == tid) = [] := by
  unfold dlSaleLinkedStep at h
  rw [hfs] at h
  simp only [htid, htx, horig, if_true] at h
  split at h
  · exact Except.noConfusion h
  · rw [if_neg (by rw [ha]; exact fun hc => DLAction.noConfusion hc)] at h
    cases h
    exact dlReturnReversal_rows_deleted dto tid tx orig _ ha

/-- A successful RETURN whose transaction has no remaining
TransactionBonusProduct rows does not change the product table. -/
theorem dlSaleLinkedStep_return_products (dto : DefLogDto) (s s₂ : DLState) (tid : ℕ)
    (ha : dto.actionType = DLAction.RETURN) (htid : dto.transactionId = some tid)
    (hrows : s.txBonusProducts.filter (fun bp => bp.transactionId == tid) = [])
    (h : dlSaleLinkedStep dto s = .ok s₂) :
    s₂.products = s.products := by
  unfold dlSaleLinkedStep at h
  split at h
  case isFalse => cases h; rfl
  case isTrue =>
    rw [htid] at h
    simp only [] at h
    split at h
    · cases h; rfl
    · rename_i tx htx
      split at h
      · cases h; rfl
      · rename_i orig horig
        split at h
        · exact Except.noConfusion h
        · rw [if_neg (by rw [ha]; exact fun hc => DLAction.noConfusion hc)] at h
          cases h
          rw [dlReturnReversal_products_of_empty dto tid tx orig _
              (by rw [dlItemMutation_txBonusProducts]; exact hrows),
            dlItemMutation_products]

/-- Destructor for a successful `dlCreate` run. -/
theorem dlCreate_ok_destruct (dto : DefLogDto) (s s' : DLState) (log : DefLog)
    (h : dlCreate dto s = .ok (s', log)) :
    ∃ product s₂, findProduct s dto.productId = some product
      ∧ dlSaleLinkedStep dto (setProduct s dto.productId (dlProductAfter dto product)) = .ok s₂
      ∧ log = { productId := dto.productId, quantity := dto.quantity,
                cashAmount := dlCashAmount dto product s, actionType := dto.actionType,
                transactionId := dto.transactionId }
      ∧ s' = (match dto.branchId with
              | none => s₂
              | some bid => incBranchCash s₂ bid (dlCashAmount dto product s)) := by
  rcases hbid : dto.branchId with _ | bid
  · simp only [dlCreate, hbid] at h
    repeat' split at h
    all_goals first
      | exact Except.noConfusion h
      | (cases h
         exact ⟨_, _, by assumption, by assumption, rfl, rfl⟩)
  · simp only [dlCreate, hbid] at h
    repeat' split at h
    all_goals first
      | exact Except.noConfusion h
      | (cases h
         exact ⟨_, _, by assumption, by assumption, rfl, rfl⟩)

/-! ## C6 -/

/-- C6: a sale-linked RETURN that reaches the transaction line deletes all
TransactionBonusProduct join rows for that transaction after restocking
them (first conjunct), and a RETURN against a transaction whose join rows
are already gone changes no product other than the returned one — in
particular it does not restock any bonus product again (second conjunct).
Together: the bonus-product restock happens exactly once across repeated
returns. -/
theorem c6_bonus_restock_once :
    (∀ (dto : DefLogDto) (s s' : DLState) (log : DefLog) (tid : ℕ) (tx : Txn) (orig : TxItem),
      dto.actionType = DLAction.RETURN → dto.isFromSale = true →
      dto.transactionId = some tid →
      findTxn s tid = some tx →
      tx.items.find? (fun i => i.productId == dto.productId) = some orig →
      dlCreate dto s = .ok (s', log) →
      s'.txBonusProducts.filter (fun bp => bp.transactionId == tid) = [])
    ∧ (∀ (dto : DefLogDto) (s s' : DLState) (log : DefLog) (tid : ℕ) (pid : ℕ),
      dto.actionType = DLAction.RETURN →
      dto.transactionId = some tid →
      s.txBonusProducts.filter (fun bp => bp.transactionId == tid) = [] →
      dlCreate dto s = .ok (s', log) →
      pid ≠ dto.productId →
      findProduct s' pid = findProduct s pid) := by
  constructor
  · intro dto s s' log tid tx orig ha hfs htid htx horig hok
    obtain ⟨product, s₂, hfind, hsale, hlog, hs'⟩ := dlCreate_ok_destruct dto s s' log hok
    have hdel : s₂.txBonusProducts.filter (fun bp => bp.transactionId == tid) = [] := by
      apply dlSaleLinkedStep_return_deletes dto _ s₂ tid tx orig ha hfs htid _ horig hsale
      rw [findTxn_setProduct]
      exact htx
    rw [hs']
    rcases dto.branchId with _ | bid
    · exact hdel
    · exact hdel
  · intro dto s s' log tid pid ha htid hrows hok hne
    obtain ⟨product, s₂, hfind, hsale, hlog, hs'⟩ := dlCreate_ok_destruct dto s s' log hok
    have hprod2 : s₂.products = (setProduct s dto.productId (dlProductAfter dto product)).products := by
      apply dlSaleLinkedStep_return_products dto _ s₂ tid ha htid _ hsale
      exact hrows
    have hfp : findProduct s' pid = findProduct s₂ pid := by
      rw [hs']
      rcases dto.branchId with _ | bid
      · rfl
      · rfl
    rw [hfp]
    have hfp2 : findProduct s₂ pid
        = findProduct (setProduct s dto.productId (dlProductAfter dto product)) pid := by
      unfold findProduct
      rw [hprod2]
    rw [hfp2]
    exact findProduct_setProduct_ne s dto.productId pid (dlProductAfter dto product) hne

/-- C6 witness: the concrete two-RETURN scenario — the first RETURN
restocks the 3 giveaway units of product 2 (quantity 5 → 8) and deletes
the join rows; the second RETURN leaves product 2 untouched. -/
theorem c6_bonus_restock_once_witness :
    (c6S1.txBonusProducts.filter (fun bp => bp.transactionId == 7) = []
      ∧ findProduct c6S2 2 = findProduct c6S1 2)
    ∧ (findProduct c6S1 2).map (fun p => p.quantity) = some 8 := by
  have hok1 : dlCreate c6Dto c6S0 = .ok (c6S1, c6Log1) := by
    simp [dlCreate, c6Dto, c6S0, c6S1, c6Log1, c6P1, c6P2, c6Tx, c6Item, findProduct,
      findBranch, findTxn, dlCashAmount, returnRefundUnit, returnDefaultCash, dlProductAfter,
      dlSaleLinkedStep, dlItemMutation, dlReturnReversal, setProduct, updateItemInTxn,
      incProductQty, deleteTxBonusProducts, deleteBonuses, setTxnExtraProfit,
      returnNewExtraProfit, incBranchCash]
    norm_num
  have hok2 : dlCreate c6Dto c6S1 = .ok (c6S2, c6Log2) := by
    simp [dlCreate, c6Dto, c6S1, c6S2, c6Log2, c6P1, c6P2, c6Tx, c6Item, findProduct,
      findBranch, findTxn, dlCashAmount, returnRefundUnit, returnDefaultCash, dlProductAfter,
      dlSaleLinkedStep, dlItemMutation, dlReturnReversal, setProduct, updateItemInTxn,
      incProductQty, deleteTxBonusProducts, deleteBonuses, setTxnExtraProfit,
      returnNewExtraProfit, incBranchCash]
    norm_num
  refine ⟨⟨?_, ?_⟩, ?_⟩
  · exact c6_bonus_restock_once.1 c6Dto c6S0 c6S1 c6Log1 7 c6Tx c6Item rfl rfl rfl
      (by simp [findTxn, c6S0, c6Tx]) (by simp [c6Tx, c6Item, c6Dto]) hok1
  · exact c6_bonus_restock_once.2 c6Dto c6S1 c6S2 c6Log2 7 2 rfl rfl (by simp [c6S1]) hok2
      (by simp [c6Dto])
  · simp [findProduct, c6S1, c6P2]

/-! ## C10 -/

/-- C10: for every defective-log action that completes with a branchId
supplied, the branch's cash balance after the atomic write equals its
previous balance plus exactly the `cashAmount` persisted on the created
DefectiveLog record. -/
theorem c10_log_cash_equals_branch_increment (dto : DefLogDto) (s s' : DLState) (log : DefLog)
    (bid : ℕ) (hb : dto.branchId = some bid) (hok : dlCreate dto s = .ok (s', log)) :
    findBranch s' bid = (findBranch s bid).map (fun c => c + log.cashAmount) := by
  obtain ⟨product, s₂, hfind, hsale, hlog, hs'⟩ := dlCreate_ok_destruct dto s s' log hok
  have hbr2 : s₂.branches = s.branches := by
    rw [dlSaleLinkedStep_ok_branches dto _ s₂ hsale]
    rfl
  have hfb2 : findBranch s₂ bid = findBranch s bid := by
    unfold findBranch
    rw [hbr2]
  rw [hs', hb]
  rw [show (match some bid with
      | none => s₂
      | some b => incBranchCash s₂ b (dlCashAmount dto product s))
      = incBranchCash s₂ bid (dlCashAmount dto product s) from rfl]
  rw [findBranch_incBranchCash, hfb2, hlog]

/-- C10 witness: the concrete FIXED action for 2 units at price 7 against
branch 3 — the log records cashAmount 14 and the branch balance goes from
100 to 114. -/
theorem c10_log_cash_equals_branch_increment_witness :
    findBranch c10S1 3 = (findBranch c10S 3).map (fun c => c + c10Log.cashAmount) := by
  have hok : dlCreate c10Dto c10S = .ok (c10S1, c10Log) := by
    simp [dlCreate, c10Dto, c10S, c10S1, c10Log, c10Product, findProduct, findBranch,
      dlCashAmount, dlProductAfter, dlSaleLinkedStep, setProduct, incBranchCash]
    norm_num
  exact c10_log_cash_equals_branch_increment c10Dto c10S c10S1 c10Log 3 rfl hok

end NonProject
